import Mathlib

/-!
Verification of the selection-and-sort core of the Chonky file browser
(`src/FileBrowser.tsx`), shallowly embedded in Lean 4.

Conventions of the embedding:
* TypeScript optional booleans (`selectable?: boolean`) become `Option Bool`,
  so the check `file.selectable !== false` becomes `selectable ≠ some false`.
* A nullable file record (`Nullable<FileData>`) becomes `Option FileData`.
* The JS selection object (mapping id → true, absent = unselected) becomes a
  `Finset String` of the selected ids; internal code only ever stores `true`.
* Reference equality (`!==`, `shallowEqualArrays`, `shallowEqualObjects`) is
  proxied by value equality on the embedded data, the standard move for a
  shallow embedding of immutable React props.
* Host callbacks are modelled by returning the list of arguments they would be
  invoked with during one update, assuming the host supplied the callback.
-/

namespace Chonky

/-- The subset of the `FileData` record relevant to the selection core:
identity, the `selectable` flag and the `openable` flag (both optional,
defaulting to "allowed"). -/
structure FileData where
  id : String
  selectable : Option Bool := none
  openable : Option Bool := none
  deriving DecidableEq, Repr

/-- `file.selectable !== false` from the source. -/
def canBeSelected (f : FileData) : Bool :=
  match f.selectable with
  | some false => false
  | _ => true

/-- The selection set: ids mapped to `true` in the source's selection object. -/
abbrev Selection := Finset String

/-- `SelectionType` from `typedef.ts`, as used by `handleSelectionToggle`. -/
inductive SelectionType where
  | Single
  | Multiple
  | Range
  deriving DecidableEq, Repr

/-- `SelectionStatus` from `typedef.ts`, as used by
`UNSAFE_componentWillReceiveProps`. -/
inductive SelectionStatus where
  | Ok
  | NeedsCleaning
  | NeedsResetting
  deriving DecidableEq, Repr

/-- `SortOrder` from `typedef.ts`. -/
inductive SortOrder where
  | Asc
  | Desc
  deriving DecidableEq, Repr

/-- `SortProperty` from `typedef.ts`; only `Name` appears explicitly in
`FileBrowser.tsx`, the others stand for the remaining enum values. -/
inductive SortProperty where
  | Name
  | Size
  | ModDate
  deriving DecidableEq, Repr

/-- `FolderView` from `typedef.ts`; `Details` is the default used in the
constructor. -/
inductive FolderView where
  | Details
  | SmallThumbs
  | LargeThumbs
  deriving DecidableEq, Repr

/-- The five option toggles merged in the `FileBrowser` constructor. -/
structure Options where
  showHidden : Bool
  foldersFirst : Bool
  showExtensions : Bool
  confirmDeletions : Bool
  disableSelection : Bool
  deriving DecidableEq, Repr

/-- The constructor's default option values (`FileBrowser.tsx` lines 109-116). -/
def defaultOptions : Options :=
  { showHidden := true
    foldersFirst := true
    showExtensions := true
    confirmDeletions := true
    disableSelection := true }

/-- `Partial<Options>` as supplied through props. -/
structure OptionsPatch where
  showHidden : Option Bool := none
  foldersFirst : Option Bool := none
  showExtensions : Option Bool := none
  confirmDeletions : Option Bool := none
  disableSelection : Option Bool := none
  deriving DecidableEq, Repr

/-- The spread `{...prevState.options, ...options}` from
`UNSAFE_componentWillReceiveProps`. -/
def mergeOptions (o : Options) (p : OptionsPatch) : Options :=
  { showHidden := p.showHidden.getD o.showHidden
    foldersFirst := p.foldersFirst.getD o.foldersFirst
    showExtensions := p.showExtensions.getD o.showExtensions
    confirmDeletions := p.confirmDeletions.getD o.confirmDeletions
    disableSelection := p.disableSelection.getD o.disableSelection }

/-- `ClickEvent` from `typedef.ts`: the modifier keys carried by a click. -/
structure ClickEvent where
  ctrlKey : Bool
  shiftKey : Bool
  deriving DecidableEq, Repr

/-- Modelled from the spec: `Util.clampIndex` is not among the sources; §4.3
of the spec says the remembered anchor index is clamped into the bounds of the
list (to the last valid index when too large) and becomes undefined when the
list is empty.  The `undefined` case is folded into the `Option` result. -/
def clampIndex (i : Nat) (len : Nat) : Option Nat :=
  if len = 0 then none else some (min i (len - 1))

/-- `FileBrowserState` from `FileBrowser.tsx` (lines 72-85): raw and sorted
file lists, the id → index map, selection, anchor index and configuration. -/
structure BState where
  rawFiles : List (Option FileData)
  folderChain : Option (List (Option FileData))
  sortedFiles : List (Option FileData)
  fileIndexMap : List (String × Nat)
  previousSelectionIndex : Option Nat
  selection : Selection
  view : FolderView
  options : Options
  sortProperty : SortProperty
  sortOrder : SortOrder

/-- The clamped previous selection index used at the top of the
`handleSelectionToggle` updater:
`isNumber(prevI) ? clampIndex(prevI, sortedFiles) : null`. -/
def clampPrev (st : BState) : Option Nat :=
  st.previousSelectionIndex.bind (fun i => clampIndex i st.sortedFiles.length)

/-- The `Range`-to-`Multiple` fallback of `handleSelectionToggle`: range
selection downgrades to multiple selection when no previous index is
available. -/
def effectiveType (st : BState) (type : SelectionType) : SelectionType :=
  if type = SelectionType.Range ∧ clampPrev st = none then SelectionType.Multiple
  else type

/-- The ids written by the `Range` branch of `handleSelectionToggle`: the
loop `for (i = lo; i < hi + 1; ++i)` collecting every non-nil, selectable
file at an index between `lo` and `hi` inclusive. -/
def rangeIds (sorted : List (Option FileData)) (lo hi : Nat) : Selection :=
  ((List.range' lo (hi + 1 - lo)).filterMap
    (fun i => (sorted.get? i).join.bind
      (fun f => if canBeSelected f then some f.id else none))).toFinset

/-- The state-updater body of `handleSelectionToggle` (lines 250-288):
returns the new selection (also the argument passed to `onSelectionChange`)
and the new `previousSelectionIndex`. -/
def handleSelectionToggle (st : BState) (file : FileData) (displayIndex : Nat)
    (type : SelectionType) : Selection × Option Nat :=
  let prevIndex := clampPrev st
  let t := effectiveType st type
  let selectionIndexToPersist :=
    if t = SelectionType.Multiple ∨ t = SelectionType.Range then
      prevIndex.getD displayIndex
    else displayIndex
  let newSelection :=
    match t with
    | SelectionType.Single =>
        if file.id ∉ st.selection ∧ canBeSelected file = true then {file.id}
        else (∅ : Selection)
    | SelectionType.Multiple =>
        if file.id ∈ st.selection then st.selection.erase file.id
        else insert file.id st.selection
    | SelectionType.Range =>
        let a := prevIndex.getD 0
        rangeIds st.sortedFiles (min a displayIndex) (max a displayIndex)
  (newSelection, some selectionIndexToPersist)

/-- The ids of the selectable, non-nil files of a list; the selection
invariant of the spec quantifies over these. -/
def selectableIds (files : List (Option FileData)) : Selection :=
  (files.filterMap (fun of => of.bind
    (fun f => if canBeSelected f then some f.id else none))).toFinset

/-- The selection invariant of the spec (§3): every id in the selection
corresponds to a file present in the list with `selectable !== false`. -/
def selInv (files : List (Option FileData)) (sel : Selection) : Prop :=
  sel ⊆ selectableIds files

/-- `FileBrowserProps`, restricted to the fields read by the reconciliation
logic of `UNSAFE_componentWillReceiveProps` and `componentDidUpdate`. -/
structure BrowserProps where
  files : List (Option FileData)
  folderChain : Option (List (Option FileData))
  disableSelection : Option Bool
  view : Option FolderView
  options : Option OptionsPatch
  sortProperty : Option SortProperty
  sortOrder : Option SortOrder

/-- Modelled from the spec: `Util.getNonNil(chain, -1)` is not among the
sources; the spec reads it as the terminal (current) folder of the folder
chain, `null` when the chain is absent, empty, or ends in a placeholder. -/
def terminalOf (chain : Option (List (Option FileData))) : Option FileData :=
  match chain with
  | none => none
  | some l => l.getLast?.join

/-- Modelled from the spec: `Util.getNonNil(chain, -2)` is not among the
sources; the spec reads it as the parent folder, the second-to-last element
of the folder chain, `null` when there is no such element or it is a
placeholder. -/
def parentOf (chain : Option (List (Option FileData))) : Option FileData :=
  match chain with
  | none => none
  | some l => if l.length < 2 then none else (l.get? (l.length - 2)).join

/-- The `selectionStatus` computed by `UNSAFE_componentWillReceiveProps`
(lines 142-157): file-list change ⇒ `NeedsCleaning`; folder-chain change with
a different terminal folder (or a non-array chain) ⇒ `NeedsResetting`;
newly-true `disableSelection` ⇒ `NeedsResetting`; later assignments win. -/
def selectionStatusOf (old new : BrowserProps) : SelectionStatus :=
  let s1 :=
    if new.files ≠ old.files then SelectionStatus.NeedsCleaning
    else SelectionStatus.Ok
  let s2 :=
    if new.folderChain ≠ old.folderChain then
      if new.folderChain = none ∨ terminalOf new.folderChain ≠ terminalOf old.folderChain
      then SelectionStatus.NeedsResetting
      else s1
    else s1
  if new.disableSelection = some true ∧ new.disableSelection ≠ old.disableSelection
  then SelectionStatus.NeedsResetting
  else s2

/-- The `NeedsCleaning` updater (lines 172-188): keep an id iff its file is a
non-nil member of the (new) raw file list, was selected and is selectable;
clamp the anchor into the new list's bounds. -/
def cleanSelection (files : List (Option FileData)) (oldSelection : Selection)
    (prevIndex : Option Nat) : Selection × Option Nat :=
  let selection := (files.filterMap (fun of => of.bind
    (fun f => if f.id ∈ oldSelection ∧ canBeSelected f = true then some f.id else none))).toFinset
  (selection, prevIndex.bind (fun i => clampIndex i files.length))

/-- The per-field `setState` calls of `UNSAFE_componentWillReceiveProps`
(lines 144-163).  The source queues them sequentially; since each call
touches a distinct field of the state, the composition is this single record
update. -/
def applyPropUpdates (old new : BrowserProps) (st : BState) : BState :=
  { st with
    rawFiles := if new.files ≠ old.files then new.files else st.rawFiles
    folderChain :=
      if new.folderChain ≠ old.folderChain then new.folderChain else st.folderChain
    view :=
      match new.view with
      | some v => if some v ≠ old.view then v else st.view
      | none => st.view
    options :=
      match new.options with
      | some o => if some o ≠ old.options then mergeOptions st.options o else st.options
      | none => st.options
    sortProperty :=
      match new.sortProperty with
      | some p => if some p ≠ old.sortProperty then p else st.sortProperty
      | none => st.sortProperty
    sortOrder :=
      match new.sortOrder with
      | some o => if some o ≠ old.sortOrder then o else st.sortOrder
      | none => st.sortOrder }

/-- `UNSAFE_componentWillReceiveProps` (lines 135-190): applies the queued
`setState` updates in order and resolves the selection status.  The second
component lists the arguments `onSelectionChange` is invoked with. -/
def receiveProps (old new : BrowserProps) (st : BState) : BState × List Selection :=
  let st := applyPropUpdates old new st
  match selectionStatusOf old new with
  | SelectionStatus.NeedsResetting =>
      ({ st with selection := ∅, previousSelectionIndex := none }, [(∅ : Selection)])
  | SelectionStatus.NeedsCleaning =>
      let cleaned := cleanSelection st.rawFiles st.selection st.previousSelectionIndex
      ({ st with selection := cleaned.1, previousSelectionIndex := cleaned.2 }, [cleaned.1])
  | SelectionStatus.Ok => (st, [])

/-- `componentDidUpdate` (lines 192-209): re-sort via `FileUtil.sortFiles`
(passed in as `sortFiles`, its sources being outside the repository slice)
whenever the raw files, options, sort property or sort order changed. -/
def componentDidUpdate
    (sortFiles : List (Option FileData) → Options → SortProperty → SortOrder →
      List (Option FileData) × List (String × Nat))
    (prevState st : BState) : BState :=
  let needToResort := st.rawFiles ≠ prevState.rawFiles
    ∨ st.options ≠ prevState.options
    ∨ st.sortProperty ≠ prevState.sortProperty
    ∨ st.sortOrder ≠ prevState.sortOrder
  if needToResort then
    let r := sortFiles st.rawFiles st.options st.sortProperty st.sortOrder
    { st with sortedFiles := r.1, fileIndexMap := r.2 }
  else st

/-- One full update cycle: the props reconciliation followed by the
`componentDidUpdate` re-sort check, with the pre-update state as `prevState`. -/
def updateCycle
    (sortFiles : List (Option FileData) → Options → SortProperty → SortOrder →
      List (Option FileData) × List (String × Nat))
    (old new : BrowserProps) (st : BState) : BState × List Selection :=
  let r := receiveProps old new st
  (componentDidUpdate sortFiles st r.1, r.2)

/-- `activateSortProperty` (lines 234-243): a new property sorts ascending, a
repeated property flips the order. -/
def activateSortProperty (st : BState) (name : SortProperty) : BState :=
  if st.sortProperty ≠ name then
    { st with sortProperty := name, sortOrder := SortOrder.Asc }
  else
    { st with sortProperty := name
              sortOrder := if st.sortOrder = SortOrder.Asc then SortOrder.Desc
                           else SortOrder.Asc }

/-- The three keys `handleKeyPress` recognizes, plus a catch-all. -/
inductive KbKey where
  | backspace
  | space
  | enter
  | other
  deriving DecidableEq, Repr

/-- Observable effects dispatched by `handleKeyPress`. -/
inductive DispatchedAction where
  | openFile (f : FileData)
  | singleClick (f : FileData) (displayIndex : Nat) (event : ClickEvent)
  | doubleClick (f : FileData) (displayIndex : Nat) (event : ClickEvent)
  deriving DecidableEq, Repr

/-- The click event an action carries, if any. -/
def DispatchedAction.clickEvent : DispatchedAction → Option ClickEvent
  | DispatchedAction.openFile _ => none
  | DispatchedAction.singleClick _ _ ev => some ev
  | DispatchedAction.doubleClick _ _ ev => some ev

/-- The synthetic click event built by `handleKeyPress` (line 329):
`{ctrlKey: true, shiftKey: false}`. -/
def keyboardClickEvent : ClickEvent :=
  { ctrlKey := true, shiftKey := false }

/-- The selection-type resolution of `handleFileSingleClick` (lines 350-352):
ctrl ⇒ `Multiple`, shift ⇒ `Range` (shift wins), else `Single`. -/
def resolveSelectionType (event : ClickEvent) : SelectionType :=
  let t := SelectionType.Single
  let t := if event.ctrlKey then SelectionType.Multiple else t
  if event.shiftKey then SelectionType.Range else t

/-- `handleKeyPress` (lines 291-336), with the focused DOM element's
attributes passed in as `activeFileId` / `activeInstanceId`.  Returns the
list of effects dispatched (empty = silent no-op). -/
def handleKeyPress (folderChain : Option (List (Option FileData)))
    (sortedFiles : List (Option FileData)) (fileIndexMap : List (String × Nat))
    (activeFileId : Option String) (activeInstanceId : Option String)
    (instanceId : String) (key : KbKey) : List DispatchedAction :=
  match key with
  | KbKey.other => []
  | KbKey.backspace =>
      match parentOf folderChain with
      | none => []
      | some parentFolder =>
          if parentFolder.openable = some false then []
          else [DispatchedAction.openFile parentFolder]
  | k =>
      if activeInstanceId ≠ some instanceId then []
      else
        match activeFileId with
        | none => []
        | some fileId =>
            match fileIndexMap.lookup fileId with
            | none => []
            | some displayIndex =>
                if displayIndex ≥ sortedFiles.length then []
                else
                  match (sortedFiles.get? displayIndex).join with
                  | none => []
                  | some file =>
                      if k = KbKey.space then
                        [DispatchedAction.singleClick file displayIndex keyboardClickEvent]
                      else
                        [DispatchedAction.doubleClick file displayIndex keyboardClickEvent]

/-! ## Helper lemmas -/

theorem mem_selectableIds {files : List (Option FileData)} {id : String} :
    id ∈ selectableIds files ↔
      ∃ f : FileData, some f ∈ files ∧ canBeSelected f = true ∧ f.id = id := by
  constructor
  · intro h
    rw [selectableIds, List.mem_toFinset] at h
    obtain ⟨of, hmem, hof⟩ := List.mem_filterMap.mp h
    obtain ⟨f, hf, hif⟩ := Option.bind_eq_some.mp hof
    by_cases hc : canBeSelected f
    · refine ⟨f, hf ▸ hmem, hc, ?_⟩
      simpa [hc] using hif
    · simp [hc] at hif
  · rintro ⟨f, hmem, hc, hid⟩
    rw [selectableIds, List.mem_toFinset]
    exact List.mem_filterMap.mpr ⟨some f, hmem, by simp [hc, hid]⟩

theorem rangeIds_subset_selectableIds (sorted : List (Option FileData)) (lo hi : Nat) :
    rangeIds sorted lo hi ⊆ selectableIds sorted := by
  intro id h
  rw [rangeIds, List.mem_toFinset] at h
  obtain ⟨i, _, hif⟩ := List.mem_filterMap.mp h
  obtain ⟨f, hf, hfi⟩ := Option.bind_eq_some.mp hif
  by_cases hc : canBeSelected f
  · have hget : sorted.get? i = some (some f) := Option.join_eq_some.mp hf
    refine mem_selectableIds.mpr ⟨f, List.get?_mem hget, hc, ?_⟩
    simpa [hc] using hfi
  · simp [hc] at hfi

theorem cleanSelection_fst (files : List (Option FileData)) (oldSelection : Selection)
    (prevIndex : Option Nat) :
    (cleanSelection files oldSelection prevIndex).1 = oldSelection ∩ selectableIds files := by
  ext id
  rw [Finset.mem_inter, mem_selectableIds]
  simp only [cleanSelection, List.mem_toFinset]
  constructor
  · intro h
    obtain ⟨of, hmem, hof⟩ := List.mem_filterMap.mp h
    obtain ⟨f, hf, hfi⟩ := Option.bind_eq_some.mp hof
    by_cases hc : f.id ∈ oldSelection ∧ canBeSelected f = true
    · have hid : f.id = id := by simpa [hc] using hfi
      exact ⟨hid ▸ hc.1, f, hf ▸ hmem, hc.2, hid⟩
    · simp [hc] at hfi
  · rintro ⟨hid, f, hmem, hc, hfid⟩
    subst hfid
    refine List.mem_filterMap.mpr ⟨some f, hmem, ?_⟩
    simp [hid, hc]

theorem applyPropUpdates_selection (old new : BrowserProps) (st : BState) :
    (applyPropUpdates old new st).selection = st.selection :=
  rfl

theorem applyPropUpdates_previousSelectionIndex (old new : BrowserProps) (st : BState) :
    (applyPropUpdates old new st).previousSelectionIndex = st.previousSelectionIndex :=
  rfl

theorem applyPropUpdates_rawFiles (old new : BrowserProps) (st : BState)
    (h : new.files ≠ old.files) :
    (applyPropUpdates old new st).rawFiles = new.files := by
  simp [applyPropUpdates, h]

theorem terminal_change_resets (old new : BrowserProps)
    (h : terminalOf new.folderChain ≠ terminalOf old.folderChain) :
    selectionStatusOf old new = SelectionStatus.NeedsResetting := by
  have hne : new.folderChain ≠ old.folderChain := fun he => h (by rw [he])
  simp only [selectionStatusOf, if_pos hne, Or.inr h, if_pos (Or.inr h)]
  split
  · rfl
  · rfl

theorem files_changed_of_cleaning (old new : BrowserProps)
    (h : selectionStatusOf old new = SelectionStatus.NeedsCleaning) :
    new.files ≠ old.files := by
  intro he
  simp only [selectionStatusOf, he, ne_eq, not_true_eq_false, if_false, ite_self] at h
  split at h
  · exact SelectionStatus.noConfusion h
  · split at h
    · split at h
      · exact SelectionStatus.noConfusion h
      · exact SelectionStatus.noConfusion h
    · exact SelectionStatus.noConfusion h

/-! ## Concrete fixtures for witnesses and counterexamples -/

/-- A plain selectable file. -/
def fileA : FileData := ⟨"a", none, none⟩

/-- Another plain selectable file. -/
def fileB : FileData := ⟨"b", none, none⟩

/-- A third plain selectable file. -/
def fileC : FileData := ⟨"c", none, none⟩

/-- A file with `selectable: false`. -/
def fileN : FileData := ⟨"n", some false, none⟩

/-- A browser state over a given sorted list, selection and anchor, with
default configuration. -/
def mkState (sorted : List (Option FileData)) (sel : Selection) (prev : Option Nat) : BState :=
  { rawFiles := sorted
    folderChain := none
    sortedFiles := sorted
    fileIndexMap := []
    previousSelectionIndex := prev
    selection := sel
    view := FolderView.Details
    options := defaultOptions
    sortProperty := SortProperty.Name
    sortOrder := SortOrder.Asc }

/-! ## Claims -/

/-- Claim C1, counterexample: the `Multiple` branch of
`handleSelectionToggle` has no `selectable` guard, so toggling an unselected
file with `selectable: false` in `Multiple` mode puts it into the selection,
breaking the non-selectable-exclusion invariant. -/
theorem C1_counterexample :
    fileN.selectable = some false
    ∧ fileN.id ∈ (handleSelectionToggle (mkState [some fileN] ∅ none) fileN 0
        SelectionType.Multiple).1
    ∧ ¬ selInv (mkState [some fileN] ∅ none).sortedFiles
        (handleSelectionToggle (mkState [some fileN] ∅ none) fileN 0
          SelectionType.Multiple).1 := by
  refine ⟨rfl, by decide, ?_⟩
  intro h
  have := h (by decide : fileN.id ∈ (handleSelectionToggle (mkState [some fileN] ∅ none)
    fileN 0 SelectionType.Multiple).1)
  revert this
  decide

/-- Claim C1 (amended): after a selection toggle on a file of the sorted
list, every id of the selection corresponds to a selectable file of the
list, PROVIDED the target is selectable, or already selected, or the
effective mode (after the `Range` fallback) is not `Multiple`.  The one
exception, excluded by the last hypothesis, is the `Multiple` branch adding
an unselected non-selectable target. -/
theorem C1_amended (st : BState) (file : FileData) (displayIndex : Nat) (type : SelectionType)
    (hfile : st.sortedFiles.get? displayIndex = some (some file))
    (hinv : selInv st.sortedFiles st.selection)
    (hok : canBeSelected file = true ∨ file.id ∈ st.selection
      ∨ effectiveType st type ≠ SelectionType.Multiple) :
    selInv st.sortedFiles (handleSelectionToggle st file displayIndex type).1 := by
  have hmem_of_sel : canBeSelected file = true → file.id ∈ selectableIds st.sortedFiles :=
    fun hc => mem_selectableIds.mpr ⟨file, List.get?_mem hfile, hc, rfl⟩
  rcases ht : effectiveType st type with _ | _ | _ <;>
    simp only [handleSelectionToggle, ht]
  · split
    · rename_i hcond
      intro x hx
      rw [Finset.mem_singleton] at hx
      exact hx ▸ hmem_of_sel hcond.2
    · exact Finset.empty_subset _
  · split
    · exact (Finset.erase_subset _ _).trans hinv
    · rename_i hnm
      rcases hok with hc | hm | hne
      · exact Finset.insert_subset_iff.mpr ⟨hmem_of_sel hc, hinv⟩
      · exact absurd hm hnm
      · exact absurd ht hne
  · exact rangeIds_subset_selectableIds _ _ _

/-- Witness for C1 (amended): a concrete `Single` toggle on a selectable
file preserves the invariant. -/
theorem C1_witness :
    selInv (mkState [some fileA] ∅ none).sortedFiles
      (handleSelectionToggle (mkState [some fileA] ∅ none) fileA 0 SelectionType.Single).1 :=
  C1_amended (mkState [some fileA] ∅ none) fileA 0 SelectionType.Single rfl
    (Finset.empty_subset _) (Or.inl rfl)

/-- Claim C2, counterexample: in `Single` mode the new selection starts as
the empty object and the target is added only when it was unselected, so
toggling an already-selected file clears the whole selection instead of
leaving it unchanged. -/
theorem C2_counterexample :
    fileA.id ∈ (mkState [some fileA] {"a"} (some 0)).selection
    ∧ fileA.id ∉ (handleSelectionToggle (mkState [some fileA] {"a"} (some 0)) fileA 0
        SelectionType.Single).1 := by
  decide

/-- Claim C2 (amended): when the target's id is already selected, a `Single`
toggle clears the selection to the empty set (every file is deselected,
including the target), and the anchor becomes the target's display index. -/
theorem C2_amended (st : BState) (file : FileData) (displayIndex : Nat)
    (h : file.id ∈ st.selection) :
    handleSelectionToggle st file displayIndex SelectionType.Single
      = ((∅ : Selection), some displayIndex) := by
  simp [handleSelectionToggle, effectiveType, h]

/-- Witness for C2 (amended), at a concrete already-selected file. -/
theorem C2_witness :
    fileA.id ∈ (mkState [some fileA] {"a"} (some 0)).selection
    ∧ handleSelectionToggle (mkState [some fileA] {"a"} (some 0)) fileA 0 SelectionType.Single
        = ((∅ : Selection), some 0) :=
  ⟨by decide, C2_amended (mkState [some fileA] {"a"} (some 0)) fileA 0 (by decide)⟩

/-- Claim C3, counterexample: the `Range` branch writes into a fresh empty
selection object, so a previously selected id outside the range (here `"c"`
at index 2, range 0-1) does NOT remain selected. -/
theorem C3_counterexample :
    clampPrev (mkState [some fileA, some fileB, some fileC] {"c"} (some 0)) = some 0
    ∧ "c" ∈ (mkState [some fileA, some fileB, some fileC] {"c"} (some 0)).selection
    ∧ "c" ∉ (handleSelectionToggle (mkState [some fileA, some fileB, some fileC] {"c"} (some 0))
        fileB 1 SelectionType.Range).1 := by
  decide

/-- Claim C3 (amended): with a valid (clamped) anchor `a`, a `Range` toggle
REPLACES the selection with exactly the ids of the non-null selectable files
at indices between `min a targetIndex` and `max a targetIndex` inclusive,
and the anchor persists as the original `a`. -/
theorem C3_amended (st : BState) (file : FileData) (displayIndex : Nat) (a : Nat)
    (h : clampPrev st = some a) :
    handleSelectionToggle st file displayIndex SelectionType.Range
      = (rangeIds st.sortedFiles (min a displayIndex) (max a displayIndex), some a) := by
  simp [handleSelectionToggle, effectiveType, h]

/-- Witness for C3 (amended), at a concrete anchor 0 and target 2. -/
theorem C3_witness :
    clampPrev (mkState [some fileA, some fileB, some fileC] ∅ (some 0)) = some 0
    ∧ handleSelectionToggle (mkState [some fileA, some fileB, some fileC] ∅ (some 0)) fileC 2
        SelectionType.Range
      = (rangeIds (mkState [some fileA, some fileB, some fileC] ∅ (some 0)).sortedFiles
          (min 0 2) (max 0 2), some 0) :=
  ⟨by decide, C3_amended (mkState [some fileA, some fileB, some fileC] ∅ (some 0)) fileC 2 0
    (by decide)⟩

/-- Claim C4, counterexample: in `Multiple` mode with an existing anchor
(index 0), toggling the file at display index 1 keeps the anchor at 0; it
does not become the target's index 1 as claimed. -/
theorem C4_counterexample :
    (handleSelectionToggle (mkState [some fileA, some fileB] ∅ (some 0)) fileB 1
        SelectionType.Multiple).2 ≠ some 1 := by
  decide

/-- Claim C4 (amended): a `Multiple` toggle flips membership of the target's
id in the existing selection; the resulting anchor is the clamped previous
anchor when one exists and only otherwise the target's display index. -/
theorem C4_amended (st : BState) (file : FileData) (displayIndex : Nat) :
    ((file.id ∈ st.selection →
        (handleSelectionToggle st file displayIndex SelectionType.Multiple).1
          = st.selection.erase file.id)
      ∧ (file.id ∉ st.selection →
        (handleSelectionToggle st file displayIndex SelectionType.Multiple).1
          = insert file.id st.selection))
    ∧ (handleSelectionToggle st file displayIndex SelectionType.Multiple).2
        = some ((clampPrev st).getD displayIndex) := by
  refine ⟨⟨fun h => ?_, fun h => ?_⟩, ?_⟩
  · simp [handleSelectionToggle, effectiveType, h]
  · simp [handleSelectionToggle, effectiveType, h]
  · simp [handleSelectionToggle, effectiveType]

/-- Witness for C4 (amended), at a concrete unselected target with an
existing anchor. -/
theorem C4_witness :
    (handleSelectionToggle (mkState [some fileA, some fileB] ∅ (some 0)) fileB 1
        SelectionType.Multiple).1 = insert fileB.id (∅ : Selection)
    ∧ (handleSelectionToggle (mkState [some fileA, some fileB] ∅ (some 0)) fileB 1
        SelectionType.Multiple).2
      = some ((clampPrev (mkState [some fileA, some fileB] ∅ (some 0))).getD 1) :=
  ⟨(C4_amended (mkState [some fileA, some fileB] ∅ (some 0)) fileB 1).1.2 (by decide),
   (C4_amended (mkState [some fileA, some fileB] ∅ (some 0)) fileB 1).2⟩

/-- Claim C5: when the update's selection status is `NeedsCleaning`, the new
selection is the intersection of the previous selection with the ids of the
selectable files of the new list, the anchor is clamped into the new list's
bounds (undefined when the list is empty), and `onSelectionChange` is
invoked (with the pruned set) even when it equals the old selection. -/
theorem C5_cleaning (old new : BrowserProps) (st : BState)
    (h : selectionStatusOf old new = SelectionStatus.NeedsCleaning) :
    (receiveProps old new st).1.selection = st.selection ∩ selectableIds new.files
    ∧ (receiveProps old new st).1.previousSelectionIndex
        = (match st.previousSelectionIndex with
           | none => none
           | some i =>
             if new.files.length = 0 then none else some (min i (new.files.length - 1)))
    ∧ (receiveProps old new st).2 = [st.selection ∩ selectableIds new.files] := by
  have hf : new.files ≠ old.files := files_changed_of_cleaning old new h
  have hraw := applyPropUpdates_rawFiles old new st hf
  have hsel := applyPropUpdates_selection old new st
  have hprev := applyPropUpdates_previousSelectionIndex old new st
  simp only [receiveProps, h]
  rw [hraw, hsel, hprev, cleanSelection_fst]
  refine ⟨rfl, ?_, rfl⟩
  cases st.previousSelectionIndex with
  | none => rfl
  | some i => simp [cleanSelection, clampIndex]

/-- Witness for C5, matching the spec's own test: selection `{a, b}` over
the old list `[A, B, C]`, new list `[A, C]`, anchor 2: cleaning keeps `{a}`,
clamps the anchor to 1 and notifies the host. -/
theorem C5_witness :
    selectionStatusOf
        { files := [some fileA, some fileB, some fileC], folderChain := none,
          disableSelection := none, view := none, options := none,
          sortProperty := none, sortOrder := none }
        { files := [some fileA, some fileC], folderChain := none,
          disableSelection := none, view := none, options := none,
          sortProperty := none, sortOrder := none }
      = SelectionStatus.NeedsCleaning
    ∧ (receiveProps
        { files := [some fileA, some fileB, some fileC], folderChain := none,
          disableSelection := none, view := none, options := none,
          sortProperty := none, sortOrder := none }
        { files := [some fileA, some fileC], folderChain := none,
          disableSelection := none, view := none, options := none,
          sortProperty := none, sortOrder := none }
        (mkState [some fileA, some fileB, some fileC] {"a", "b"} (some 2))).1.selection
      = (mkState [some fileA, some fileB, some fileC] {"a", "b"} (some 2)).selection
          ∩ selectableIds [some fileA, some fileC] := by
  refine ⟨by decide, (C5_cleaning _ _ _ (by decide)).1⟩

/-- Claim C6: a change of the folder chain's terminal folder resets the
selection to the empty set, clears the anchor, and invokes
`onSelectionChange` exactly once, with the empty selection. -/
theorem C6_reset (old new : BrowserProps) (st : BState)
    (h : terminalOf new.folderChain ≠ terminalOf old.folderChain) :
    (receiveProps old new st).1.selection = ∅
    ∧ (receiveProps old new st).1.previousSelectionIndex = none
    ∧ (receiveProps old new st).2 = [(∅ : Selection)] := by
  have hs := terminal_change_resets old new h
  simp [receiveProps, hs]

/-- Witness for C6: navigating from a chain ending in `fileB` to one ending
in `fileA` resets a non-empty selection. -/
theorem C6_witness :
    terminalOf (some [some fileA]) ≠ terminalOf (some [some fileA, some fileB])
    ∧ (receiveProps
        { files := [], folderChain := some [some fileA, some fileB],
          disableSelection := none, view := none, options := none,
          sortProperty := none, sortOrder := none }
        { files := [], folderChain := some [some fileA],
          disableSelection := none, view := none, options := none,
          sortProperty := none, sortOrder := none }
        (mkState [some fileA] {"a"} (some 0))).1.selection = ∅
    ∧ (receiveProps
        { files := [], folderChain := some [some fileA, some fileB],
          disableSelection := none, view := none, options := none,
          sortProperty := none, sortOrder := none }
        { files := [], folderChain := some [some fileA],
          disableSelection := none, view := none, options := none,
          sortProperty := none, sortOrder := none }
        (mkState [some fileA] {"a"} (some 0))).2 = [(∅ : Selection)] := by
  have h := C6_reset
    { files := [], folderChain := some [some fileA, some fileB],
      disableSelection := none, view := none, options := none,
      sortProperty := none, sortOrder := none }
    { files := [], folderChain := some [some fileA],
      disableSelection := none, view := none, options := none,
      sortProperty := none, sortOrder := none }
    (mkState [some fileA] {"a"} (some 0)) (by decide)
  exact ⟨by decide, h.1, h.2.2⟩

/-- Claim C7: every keyboard-originated activation (space or enter)
dispatches the synthetic click event `{ctrlKey: true, shiftKey: false}`,
which `handleFileSingleClick` resolves to `Multiple` (additive) selection
semantics rather than `Single`. -/
theorem C7_keyboard_event (folderChain : Option (List (Option FileData)))
    (sortedFiles : List (Option FileData)) (fileIndexMap : List (String × Nat))
    (activeFileId activeInstanceId : Option String) (instanceId : String) (key : KbKey)
    (hk : key = KbKey.space ∨ key = KbKey.enter) :
    (∀ a ∈ handleKeyPress folderChain sortedFiles fileIndexMap activeFileId activeInstanceId
        instanceId key,
      DispatchedAction.clickEvent a = some keyboardClickEvent)
    ∧ keyboardClickEvent.ctrlKey = true
    ∧ keyboardClickEvent.shiftKey = false
    ∧ resolveSelectionType keyboardClickEvent = SelectionType.Multiple
    ∧ resolveSelectionType keyboardClickEvent ≠ SelectionType.Single := by
  refine ⟨?_, rfl, rfl, rfl, by decide⟩
  rcases hk with rfl | rfl <;>
  · intro a ha
    simp only [handleKeyPress] at ha
    repeat' split at ha
    all_goals simp_all [DispatchedAction.clickEvent]

/-- Witness for C7: a concrete space press on a focused, matching file
dispatches exactly one single-click action carrying the ctrl-click event. -/
theorem C7_witness :
    (∀ a ∈ handleKeyPress none [some fileA] [("a", 0)] (some "a") (some "i") "i" KbKey.space,
      DispatchedAction.clickEvent a = some keyboardClickEvent)
    ∧ keyboardClickEvent.ctrlKey = true
    ∧ keyboardClickEvent.shiftKey = false
    ∧ resolveSelectionType keyboardClickEvent = SelectionType.Multiple
    ∧ resolveSelectionType keyboardClickEvent ≠ SelectionType.Single :=
  C7_keyboard_event none [some fileA] [("a", 0)] (some "a") (some "i") "i" KbKey.space
    (Or.inl rfl)

/-- Claim C8: on backspace, a non-null parent folder (second-to-last chain
element) that is not marked `openable: false` is opened via `onFileOpen`;
with no parent, or a non-openable parent, the key press is a silent no-op. -/
theorem C8_backspace (folderChain : Option (List (Option FileData)))
    (sortedFiles : List (Option FileData)) (fileIndexMap : List (String × Nat))
    (activeFileId activeInstanceId : Option String) (instanceId : String) (p : FileData) :
    (parentOf folderChain = some p → p.openable ≠ some false →
      handleKeyPress folderChain sortedFiles fileIndexMap activeFileId activeInstanceId
        instanceId KbKey.backspace = [DispatchedAction.openFile p])
    ∧ (parentOf folderChain = none →
      handleKeyPress folderChain sortedFiles fileIndexMap activeFileId activeInstanceId
        instanceId KbKey.backspace = [])
    ∧ (parentOf folderChain = some p → p.openable = some false →
      handleKeyPress folderChain sortedFiles fileIndexMap activeFileId activeInstanceId
        instanceId KbKey.backspace = []) := by
  refine ⟨fun h1 h2 => ?_, fun h1 => ?_, fun h1 h2 => ?_⟩
  · simp [handleKeyPress, h1, h2]
  · simp [handleKeyPress, h1]
  · simp [handleKeyPress, h1, h2]

/-- Witness for C8, matching the spec's own test: backspace with chain
`[Root, Docs]` (here `[fileA, fileB]`) opens the parent `fileA`; backspace
with the single-element chain `[fileA]` is a no-op. -/
theorem C8_witness :
    handleKeyPress (some [some fileA, some fileB]) [] [] none none "i" KbKey.backspace
      = [DispatchedAction.openFile fileA]
    ∧ handleKeyPress (some [some fileA]) [] [] none none "i" KbKey.backspace = [] :=
  ⟨(C8_backspace (some [some fileA, some fileB]) [] [] none none "i" fileA).1
      (by decide) (by decide),
   (C8_backspace (some [some fileA]) [] [] none none "i" fileA).2.1 (by decide)⟩

/-- Claim C9: whenever an update cycle changes the raw file list, the
options, the sort property or the sort order held in state, the cycle ends
with `sortedFiles` and `fileIndexMap` recomputed by the sort engine on the
new state — with no condition on the cycle's selection status, so re-sorting
is not skipped when the status is `Ok`. -/
theorem C9_resort
    (sortFiles : List (Option FileData) → Options → SortProperty → SortOrder →
      List (Option FileData) × List (String × Nat))
    (old new : BrowserProps) (st : BState)
    (h : (receiveProps old new st).1.rawFiles ≠ st.rawFiles
      ∨ (receiveProps old new st).1.options ≠ st.options
      ∨ (receiveProps old new st).1.sortProperty ≠ st.sortProperty
      ∨ (receiveProps old new st).1.sortOrder ≠ st.sortOrder) :
    (updateCycle sortFiles old new st).1.sortedFiles
      = (sortFiles (receiveProps old new st).1.rawFiles (receiveProps old new st).1.options
          (receiveProps old new st).1.sortProperty (receiveProps old new st).1.sortOrder).1
    ∧ (updateCycle sortFiles old new st).1.fileIndexMap
      = (sortFiles (receiveProps old new st).1.rawFiles (receiveProps old new st).1.options
          (receiveProps old new st).1.sortProperty (receiveProps old new st).1.sortOrder).2 := by
  simp only [updateCycle, componentDidUpdate]
  rw [if_pos h]
  exact ⟨rfl, rfl⟩

/-- Witness for C9: an options-only change (selection status `Ok`) still
triggers the re-sort. -/
theorem C9_witness :
    selectionStatusOf
        { files := [some fileA], folderChain := none, disableSelection := none,
          view := none, options := none, sortProperty := none, sortOrder := none }
        { files := [some fileA], folderChain := none, disableSelection := none,
          view := none, options := some { showHidden := some false },
          sortProperty := none, sortOrder := none }
      = SelectionStatus.Ok
    ∧ (updateCycle (fun fs _ _ _ => (fs.reverse, []))
        { files := [some fileA], folderChain := none, disableSelection := none,
          view := none, options := none, sortProperty := none, sortOrder := none }
        { files := [some fileA], folderChain := none, disableSelection := none,
          view := none, options := some { showHidden := some false },
          sortProperty := none, sortOrder := none }
        (mkState [some fileA] ∅ none)).1.sortedFiles = [some fileA] := by
  have h := C9_resort (fun fs _ _ _ => (fs.reverse, []))
    { files := [some fileA], folderChain := none, disableSelection := none,
      view := none, options := none, sortProperty := none, sortOrder := none }
    { files := [some fileA], folderChain := none, disableSelection := none,
      view := none, options := some { showHidden := some false },
      sortProperty := none, sortOrder := none }
    (mkState [some fileA] ∅ none) (Or.inr (Or.inl (by decide)))
  exact ⟨by decide, h.1.trans (by decide)⟩

/-- Claim C10: `activateSortProperty` with a new property sets that property
and resets the order to ascending; with the current property it keeps the
property and flips the order, so two consecutive calls with the same
property restore the original order. -/
theorem C10_activateSortProperty (st : BState) (name : SortProperty) :
    (st.sortProperty ≠ name →
      (activateSortProperty st name).sortProperty = name
      ∧ (activateSortProperty st name).sortOrder = SortOrder.Asc)
    ∧ (st.sortProperty = name →
      (activateSortProperty st name).sortProperty = name
      ∧ (activateSortProperty st name).sortOrder
          = (if st.sortOrder = SortOrder.Asc then SortOrder.Desc else SortOrder.Asc)
      ∧ (activateSortProperty (activateSortProperty st name) name).sortOrder
          = st.sortOrder) := by
  constructor
  · intro h
    simp [activateSortProperty, h]
  · intro h
    subst h
    cases hso : st.sortOrder <;> simp [activateSortProperty, hso]

/-- Witness for C10: both branches at concrete inputs — switching from
`Name` to `Size` resets the order to ascending; double-activating `Name`
restores the original order. -/
theorem C10_witness :
    ((activateSortProperty (mkState [] ∅ none) SortProperty.Size).sortProperty
        = SortProperty.Size
      ∧ (activateSortProperty (mkState [] ∅ none) SortProperty.Size).sortOrder
        = SortOrder.Asc)
    ∧ (activateSortProperty (activateSortProperty (mkState [] ∅ none) SortProperty.Name)
        SortProperty.Name).sortOrder = (mkState [] ∅ none).sortOrder :=
  ⟨(C10_activateSortProperty (mkState [] ∅ none) SortProperty.Size).1 (by decide),
   ((C10_activateSortProperty (mkState [] ∅ none) SortProperty.Name).2 rfl).2.2⟩

end Chonky
